import Mathlib

/-!
Shallow embedding of the slide-helper layer of the i-Document-pptx repository
(`src/servers/fastapi/slide_helper_api.py` and
`src/servers/fastapi/utils/llm_calls/generate_layout_variants.py`,
`src/servers/fastapi/utils/llm_calls/generate_text_variants.py`),
together with proofs about the slide collection editor, the slide lookup
service, the variant generators, the prompt builders' suggestion lists and
the static fallback transformer.

Backend calls (`httpx` GET/PATCH against the presentation-storage API) are
modelled as explicit `Except String` valued parameters: a fetch parameter
stands for the result of the initial GET, a `persist` parameter stands for
the final PATCH.  Python `int` is modelled as `Int`; Python lists as `List`;
a raised `HTTPException(status_code, detail)` as `Except.error` carrying an
`HError`.
-/

namespace SlideHelper

/-- The `content` mapping synthesized for a new slide in `add_slide`
(`slide_helper_api.py` lines 224-227). -/
structure SlideContent where
  title : String
  description : String
deriving DecidableEq, Repr

/-- A slide object as manipulated by `slide_helper_api.py`.  The JSON dict
fields that the helper layer reads or writes: `id`, `presentation`,
`layout_group`, `layout`, `content`, `html_content`, `speaker_note`,
`properties` and the positional field `index` (the "position" field of the
spec's data model, assigned by the re-index loops). -/
structure Slide where
  id : String
  presentation : String
  layout_group : String
  layout : String
  content : SlideContent
  html_content : Option String
  speaker_note : Option String
  properties : Option String
  index : Int
deriving DecidableEq, Repr

/-- A presentation document: `id` plus its ordered `slides` array
(the parts of the backend JSON that `slide_helper_api.py` reads). -/
structure Presentation where
  id : String
  slides : List Slide
deriving DecidableEq, Repr

/-- A raised `HTTPException(status_code=status, detail=detail)`. -/
structure HError where
  status : Nat
  detail : String
deriving DecidableEq, Repr

/-- `for idx, slide in enumerate(slides): slide['index'] = idx`, generalized
to start numbering at `n` (the loops in the source always start at `0`,
see `reindex`). -/
def reindexFrom (n : Int) : List Slide → List Slide
  | [] => []
  | s :: rest => { s with index := n } :: reindexFrom (n + 1) rest

/-- The re-index loop `for idx, slide in enumerate(slides): slide['index'] = idx`
used after every structural mutation (`slide_helper_api.py` lines 146-147,
246-247, 253-254, 370-371). -/
def reindex (slides : List Slide) : List Slide :=
  reindexFrom 0 slides

/-- The find-first-index loops
`for idx, slide in enumerate(...): if slide['id'] == slide_id: ...; break`
(`slide_helper_api.py` lines 121-125 and 327-331): index of the first slide
whose `id` equals `sid`, if any. -/
def findSlideIdx : List Slide → String → Option Nat
  | [], _ => none
  | s :: rest, sid =>
    if s.id = sid then some 0 else (findSlideIdx rest sid).map (· + 1)

/-- Python `list.insert(i, x)` semantics for an arbitrary `int` index:
a negative index counts from the end (clamped at 0), an index past the end
appends. -/
def pyInsertIdx (l : List Slide) (i : Int) (x : Slide) : List Slide :=
  let n : Int := l.length
  let j : Int := if i < 0 then max 0 (n + i) else min i n
  l.insertIdx j.toNat x

/-- Python `list.pop(i)` for a nonnegative index: the removed element and the
remaining list, or `none` when `i` is out of range (Python would raise). -/
def pyPop : List Slide → Nat → Option (Slide × List Slide)
  | [], _ => none
  | x :: xs, 0 => some (x, xs)
  | x :: xs, n + 1 => (pyPop xs n).map (fun p => (p.1, x :: p.2))

/-- The insertion core of `add_slide` (`slide_helper_api.py` lines 236-254):

```
if position == -1 or position >= len(slides):
    new_slide["index"] = len(slides); slides.append(new_slide)
elif position == 0:
    new_slide["index"] = 0; slides.insert(0, new_slide)
    for idx, slide in enumerate(slides): slide["index"] = idx
else:
    new_slide["index"] = position; slides.insert(position, new_slide)
    for idx, slide in enumerate(slides): slide["index"] = idx
```

Note that the append branch does not run the re-index loop. -/
def add_slide_insert (slides : List Slide) (new_slide : Slide) (position : Int) :
    List Slide :=
  if position = -1 ∨ (slides.length : Int) ≤ position then
    slides ++ [{ new_slide with index := (slides.length : Int) }]
  else if position = 0 then
    reindex ({ new_slide with index := 0 } :: slides)
  else
    reindex (pyInsertIdx slides position { new_slide with index := position })

/-- `layout.split(":")[0] if ":" in layout else "general"`
(`slide_helper_api.py` line 222): the first `:`-separated segment. -/
def layoutGroupOf (layout : String) : String :=
  if layout.data.contains ':' then
    String.mk (layout.data.takeWhile (fun c => c ≠ ':'))
  else "general"

/-- The response dict of a successful `add_slide` call
(`slide_helper_api.py` lines 268-274). -/
structure AddSlideResponse where
  message : String
  slide : Slide
  presentation_id : String
  total_slides : Nat
  presentation : Presentation
deriving DecidableEq, Repr

/-- The `index` value the new slide ends up carrying (it is set in each
branch before insertion, and the head/interior branches then re-index,
leaving it equal to the insertion index). -/
def add_slide_assigned_index (slides : List Slide) (position : Int) : Int :=
  if position = -1 ∨ (slides.length : Int) ≤ position then
    (slides.length : Int)
  else if position = 0 then 0
  else if position < 0 then max 0 ((slides.length : Int) + position)
  else position

/-- `POST /api/v1/ppt/slide` — `add_slide` (`slide_helper_api.py` lines
175-280).  `fetch` is the result of the initial
`GET /presentation/{presentation_id}`; `persist` is the final
`PATCH /presentation/update`; `new_id` stands for `str(uuid.uuid4())`.
Any exception in the initial fetch is converted to a 404; any exception in
the persist step to a 500. -/
def add_slide (fetch : Except String Presentation)
    (persist : List Slide → Except String Presentation)
    (presentation_id : String) (title : String) (description : String)
    (layout : String) (position : Int) (new_id : String) :
    Except HError AddSlideResponse :=
  match fetch with
  | .error e =>
    .error ⟨404, "Presentation " ++ presentation_id ++ " not found: " ++ e⟩
  | .ok presentation =>
    let new_slide : Slide :=
      { id := new_id
        presentation := presentation_id
        layout_group := layoutGroupOf layout
        layout := layout
        content := { title := title, description := description }
        html_content := none
        speaker_note := none
        properties := none
        index := 0 }
    let slides := presentation.slides
    let updated := add_slide_insert slides new_slide position
    let assigned := add_slide_assigned_index slides position
    match persist updated with
    | .error e =>
      .error ⟨500, "Failed to add slide to presentation: " ++ e⟩
    | .ok updated_presentation =>
      .ok { message := "Slide added successfully at position " ++ toString assigned
            slide := { new_slide with index := assigned }
            presentation_id := presentation_id
            total_slides := updated.length
            presentation := updated_presentation }

/-- The response dict of a successful `delete_slide` call
(`slide_helper_api.py` lines 161-166). -/
structure DeleteSlideResponse where
  message : String
  presentation_id : String
  slides_remaining : Nat
  presentation : Presentation
deriving DecidableEq, Repr

/-- The updated slide list built by `delete_slide`
(`slide_helper_api.py` lines 139-147): the comprehension
`[slide for idx, slide in enumerate(slides) if idx != slide_index]`
(i.e. erasure at `slide_index`) followed by the re-index loop. -/
def delete_slide_updated_slides (slides : List Slide) (slide_index : Nat) :
    List Slide :=
  reindex (slides.eraseIdx slide_index)

/-- `DELETE /api/v1/ppt/slide/{slide_id}` — `delete_slide`
(`slide_helper_api.py` lines 82-172), specialized to the presentation
`target` that the cross-presentation scan selected (the first presentation
containing `slide_id`; when no presentation contains it the scan leaves
`target_presentation`/`slide_index` unset, modelled here by
`findSlideIdx` returning `none` on `target.slides`). -/
def delete_slide (persist : List Slide → Except String Presentation)
    (target : Presentation) (slide_id : String) :
    Except HError DeleteSlideResponse :=
  match findSlideIdx target.slides slide_id with
  | none =>
    .error ⟨404, "Slide " ++ slide_id ++ " not found in any presentation"⟩
  | some slide_index =>
    let updated := delete_slide_updated_slides target.slides slide_index
    match persist updated with
    | .error e =>
      .error ⟨500, "Failed to update presentation after deleting slide: " ++ e⟩
    | .ok updated_presentation =>
      .ok { message := "Slide " ++ slide_id ++ " deleted successfully"
            presentation_id := target.id
            slides_remaining := updated.length
            presentation := updated_presentation }

/-- The two response shapes of a successful `move_slide` call: the no-op
response (`slide_helper_api.py` lines 356-361) and the actual-move response
(lines 385-393). -/
inductive MoveSlideResponse where
  | alreadyAt (message : String) (presentation_id : String)
      (current_position : Nat) (presentation : Presentation)
  | moved (message : String) (slide_id : String) (presentation_id : String)
      (old_position : Nat) (new_position : Int) (total_slides : Nat)
      (presentation : Presentation)
deriving DecidableEq, Repr

/-- The presentation carried by either `move_slide` response shape
(the unchanged `target_presentation` for `alreadyAt`, the backend-confirmed
`updated_presentation` for `moved`). -/
def MoveSlideResponse.presentation_of : MoveSlideResponse → Presentation
  | .alreadyAt _ _ _ p => p
  | .moved _ _ _ _ _ _ p => p

/-- The reorder core of `move_slide` (`slide_helper_api.py` lines 363-371):
`slide_to_move = slides.pop(current_index)`,
`slides.insert(new_position, slide_to_move)`, then the re-index loop.
(`pyPop` cannot return `none` here since `current_index` comes from
`enumerate` over the same list.) -/
def move_reorder (slides : List Slide) (current_index : Nat)
    (new_position : Int) : List Slide :=
  match pyPop slides current_index with
  | none => slides
  | some (slide_to_move, rest) =>
    reindex (pyInsertIdx rest new_position slide_to_move)

/-- `PATCH /api/v1/ppt/slide/move` — `move_slide` (`slide_helper_api.py`
lines 283-399), specialized to the presentation `target` selected by the
cross-presentation scan (`findSlideIdx ... = none` models the scan finding
the slide in no presentation).  `persist` is the final
`PATCH /presentation/update`, reached only in the actual-move branch. -/
def move_slide (persist : List Slide → Except String Presentation)
    (target : Presentation) (slide_id : String) (new_position : Int) :
    Except HError MoveSlideResponse :=
  match findSlideIdx target.slides slide_id with
  | none =>
    .error ⟨404, "Slide " ++ slide_id ++ " not found in any presentation"⟩
  | some current_index =>
    let slides := target.slides
    if new_position < 0 ∨ (slides.length : Int) ≤ new_position then
      .error ⟨400, "Invalid position " ++ toString new_position ++
        ". Must be between 0 and " ++ toString ((slides.length : Int) - 1)⟩
    else if (current_index : Int) = new_position then
      .ok (.alreadyAt ("Slide is already at position " ++ toString new_position)
        target.id current_index target)
    else
      match pyPop slides current_index with
      | none => .error ⟨500, "pop index out of range"⟩
      | some (slide_to_move, rest) =>
        let result := reindex (pyInsertIdx rest new_position slide_to_move)
        match persist result with
        | .error e =>
          .error ⟨500, "Failed to update presentation after moving slide: " ++ e⟩
        | .ok updated_presentation =>
          .ok (.moved ("Slide moved from position " ++ toString current_index ++
              " to " ++ toString new_position)
            slide_id target.id current_index new_position result.length
            updated_presentation)

/-- The scan loop of `get_slide_by_id` (`slide_helper_api.py` lines 57-73):
for each presentation id in order, fetch the full presentation (a fetch
failure skips that presentation), look for the slide by id, return the first
match. -/
def scanForSlide (fetchPres : String → Except String Presentation)
    (slide_id : String) : List String → Option Slide
  | [] => none
  | pid :: rest =>
    match fetchPres pid with
    | .error _ => scanForSlide fetchPres slide_id rest
    | .ok pres =>
      match pres.slides.find? (fun s => s.id == slide_id) with
      | some s => some s
      | none => scanForSlide fetchPres slide_id rest

/-- `GET /api/v1/ppt/slide/{slide_id}` — `get_slide_by_id`
(`slide_helper_api.py` lines 29-79).  `fetchAll` is the result of
`GET /presentation/all` (modelled as the list of presentation ids of the
summaries); `fetchPres` fetches one full presentation by id. -/
def get_slide_by_id (fetchAll : Except String (List String))
    (fetchPres : String → Except String Presentation) (slide_id : String) :
    Except HError Slide :=
  match fetchAll with
  | .error e => .error ⟨500, "Failed to fetch presentations: " ++ e⟩
  | .ok pids =>
    match scanForSlide fetchPres slide_id pids with
    | some s => .ok s
    | none =>
      .error ⟨404, "Slide " ++ slide_id ++ " not found in any presentation"⟩

/-- The data-model invariant: every slide's positional field equals its
zero-based index in the sequence. -/
def positionsIndexed (slides : List Slide) : Prop :=
  ∀ i (h : i < slides.length), (slides.get ⟨i, h⟩).index = (i : Int)

instance (slides : List Slide) : Decidable (positionsIndexed slides) :=
  Nat.decidableBallLT _ _

instance {ε α : Type} [DecidableEq ε] [DecidableEq α] :
    DecidableEq (Except ε α) := fun a b =>
  match a, b with
  | .error x, .error y =>
    if h : x = y then .isTrue (by rw [h]) else .isFalse (by simp [h])
  | .error _, .ok _ => .isFalse (by simp)
  | .ok _, .error _ => .isFalse (by simp)
  | .ok x, .ok y =>
    if h : x = y then .isTrue (by rw [h]) else .isFalse (by simp [h])

/-- A concrete slide value used in witnesses and counterexamples. -/
def mkSlide (sid : String) (idx : Int) : Slide :=
  { id := sid
    presentation := "p"
    layout_group := "general"
    layout := "general:basic-info-slide"
    content := { title := "T", description := "" }
    html_content := none
    speaker_note := none
    properties := none
    index := idx }

/-! ### Variant generators (`generate_layout_variants.py`,
`generate_text_variants.py`) -/

/-- The pydantic model `LayoutVariant` (`generate_layout_variants.py`
lines 14-18). -/
structure LayoutVariant where
  title : String
  description : String
  html : String
deriving DecidableEq, Repr

/-- `variant_count = max(1, min(variant_count, 3))`
(`generate_layout_variants.py` line 535). -/
def clamp_layout_variant_count (variant_count : Int) : Int :=
  max 1 (min variant_count 3)

/-- `variant_count = max(1, min(variant_count, 5))`
(`generate_text_variants.py` line 140). -/
def clamp_text_variant_count (variant_count : Int) : Int :=
  max 1 (min variant_count 5)

/-- Python slice `l[:n]` for an arbitrary `int` bound: a negative bound
counts from the end. -/
def pySliceTo {α : Type} (l : List α) (n : Int) : List α :=
  if 0 ≤ n then l.take n.toNat
  else l.take (((l.length : Int) + n).toNat)

/-- `generate_layout_variants` (`generate_layout_variants.py` lines
501-598), with the structured-generation call and response parse modelled by
the `llm : Except String (List LayoutVariant)` parameter (the
`LayoutVariants` schema puts no length bound on the list).  Any exception is
re-raised as HTTP 500; on success the variants are truncated:
`return response.variants[:variant_count]` (line 591) after the count was
clamped to `[1, 3]` (line 535). -/
def generate_layout_variants (llm : Except String (List LayoutVariant))
    (variant_count : Int) : Except HError (List LayoutVariant) :=
  let vc := clamp_layout_variant_count variant_count
  match llm with
  | .error e => .error ⟨500, "Failed to generate layout variants: " ++ e⟩
  | .ok variants => .ok (pySliceTo variants vc)

/-- The pydantic validation of `TextVariants`
(`generate_text_variants.py` lines 10-16): `variants` must have
`min_length=1, max_length=5`. -/
def text_variants_schema_ok (variants : List String) : Bool :=
  decide (1 ≤ variants.length) && decide (variants.length ≤ 5)

/-- `generate_text_variants` (`generate_text_variants.py` lines 124-162),
with the structured-generation call modelled by the `llm` parameter.  The
count is clamped to `[1, 5]` (line 140) but feeds only the user prompt; the
returned value is `response.variants` (line 159) — NOT truncated to the
requested count.  A schema-validation failure raises inside the `try` and is
re-raised as HTTP 500. -/
def generate_text_variants (llm : Except String (List String))
    (variant_count : Int) : Except HError (List String) :=
  let _vc := clamp_text_variant_count variant_count
  match llm with
  | .error e => .error ⟨500, "Failed to generate text variants: " ++ e⟩
  | .ok variants =>
    if text_variants_schema_ok variants then .ok variants
    else .error ⟨500, "Failed to generate text variants: validation error"⟩

/-! ### Prompt-builder suggestion lists (`get_user_prompt`,
`generate_layout_variants.py` lines 148-294) -/

/-- `layout_suggestions["list-container"]` as initialized at lines 168-172. -/
def list_container_suggestions : List String :=
  ["Generous vertical list with breathing room (space-y-8)",
   "Balanced 2-column grid if 4-6 items (grid grid-cols-2 gap-6)",
   "Creative beautiful layout: Transform to horizontal timeline OR masonry grid OR bento layout. Analyze item count first!"]

/-- The `layout_suggestions` dict as initialized at lines 157-178. -/
def layout_suggestions_dict (block_type : String) : Option (List String) :=
  if block_type = "grid-container" then
    some ["Equal grid with balanced spacing (grid-cols-2 or grid-cols-3 based on item count)",
          "Hero grid: First item spans 2×2, others are compact (use col-span-2 row-span-2)",
          "Creative beautiful layout: Analyze item count, use golden ratio (60/40), dramatic spacing (gap-8 or gap-12), intentional asymmetry. Make it magazine-quality!"]
  else if block_type = "column" then
    some ["Generous vertical spacing with rhythmic gaps (space-y-8 or space-y-12)",
          "Compact efficient stack with tight spacing (space-y-4)",
          "Creative beautiful layout: Dramatic top/bottom margins, varied spacing rhythm, elegant whitespace. Make it striking!"]
  else if block_type = "list-container" then some list_container_suggestions
  else if block_type = "list-item" then
    some ["Horizontal inline with icon left (flex gap-4)",
          "Vertical stack with centered icon (flex-col items-center text-center)",
          "Creative beautiful layout: Experiment with icon size, text alignment, padding. Make it elegant!"]
  else none

/-- The default used by `layout_suggestions.get(block_type, [...])`
(lines 180-184). -/
def default_suggestions : List String :=
  ["Improved spacing and visual hierarchy",
   "Alternative column arrangement",
   "**FREESTYLE BEAUTIFUL**: Create something stunning!"]

/-- The value assigned to `layout_suggestions["list-container"]` by the
width-adjustment block at lines 225-239 (`< 300`: vertical only; `< 600`:
vertical plus a 2-column option; otherwise the entry is left unchanged). -/
def adjusted_list_container_suggestions (available_width : Int) :
    List String :=
  if available_width < 300 then
    ["Vertical list with generous spacing (space-y-6 or space-y-8)",
     "Compact vertical list (space-y-4)",
     "Vertical list with dividers between items"]
  else if available_width < 600 then
    ["Vertical list with generous spacing (space-y-6 or space-y-8)",
     "2-column grid layout (grid grid-cols-2 gap-4)",
     "Vertical list with alternating item styles"]
  else list_container_suggestions

/-- The `suggestions` local of `get_user_prompt` after lines 180-188:
dict lookup with default, then — when one variant is requested and at least
3 suggestions exist — only the third ("freestyle") suggestion. -/
def get_user_prompt_suggestions (block_type : String) (variant_count : Int) :
    List String :=
  let suggestions := (layout_suggestions_dict block_type).getD
    default_suggestions
  if variant_count = 1 ∧ 3 ≤ suggestions.length then [suggestions.getD 2 ""]
  else suggestions

/-- The "Design Direction" lines embedded into the user prompt (line 294):
`f"{i+1}. {suggestions[i]}"` for `i in range(variant_count)`, falling back
to the creative-alternative line past the end of `suggestions`.  The
width-adjustment block (lines 225-239) rebinds
`layout_suggestions["list-container"]` to
`adjusted_list_container_suggestions available_width`, but `suggestions`
was extracted at line 180 and the dict is never read again, so the adjusted
value (kept here as the otherwise-unused `_adjusted`) never reaches the
prompt. -/
def design_direction_lines (block_type : String) (available_width : Int)
    (variant_count : Int) : List String :=
  let suggestions := get_user_prompt_suggestions block_type variant_count
  let _adjusted := adjusted_list_container_suggestions available_width
  (List.range variant_count.toNat).map (fun i =>
    if i < suggestions.length then
      toString (i + 1) ++ ". " ++ suggestions.getD i ""
    else
      toString (i + 1) ++ ". Your creative alternative - surprise us!")

/-! ### Static fallback transformer (`generate_static_variants`,
`generate_layout_variants.py` lines 329-498)

The regex operations are embedded as structural recursions over `List Char`
(the inputs under consideration are ASCII, where Python `\w` is
alphanumerics plus underscore). -/

/-- Python regex `\w` on ASCII input. -/
def isWordChar (c : Char) : Bool :=
  c.isAlphanum || c = '_'

/-- A quote character, as matched by the character class `["\']`. -/
def isQuote (c : Char) : Bool :=
  c = '"' || c = '\''

/-- `re.search(r'^<(\w+)([^>]*)>', html)` (line 339): the top-level tag
name, its attribute string, and the remainder after the closing `>` of the
opening tag — or `none` when the anchored pattern does not match. -/
def parseOpenTag (cs : List Char) : Option (List Char × List Char × List Char) :=
  match cs with
  | '<' :: rest =>
    let tag := rest.takeWhile isWordChar
    if tag.isEmpty then none
    else
      let after := rest.drop tag.length
      let attrs := after.takeWhile (fun c => c ≠ '>')
      match after.drop attrs.length with
      | '>' :: rest2 => some (tag, attrs, rest2)
      | _ => none
  | _ => none

/-- A match of `class=["\']([^"\']*)["\']` anchored at the head of `cs`:
the captured value and the remainder after the closing quote. -/
def classAttrMatchAt (cs : List Char) : Option (List Char × List Char) :=
  match cs with
  | 'c' :: 'l' :: 'a' :: 's' :: 's' :: '=' :: q :: rest =>
    if isQuote q then
      let v := rest.takeWhile (fun c => ¬ isQuote c)
      match rest.drop v.length with
      | q2 :: rest2 => if isQuote q2 then some (v, rest2) else none
      | [] => none
    else none
  | _ => none

/-- `re.search(r'class=["\']([^"\']*)["\']', tag_attrs)` (line 354):
the first match's captured group. -/
def findClassValue : List Char → Option (List Char)
  | [] => none
  | c :: rest =>
    match classAttrMatchAt (c :: rest) with
    | some (v, _) => some v
    | none => findClassValue rest

/-- Fuel-indexed worker for `stripClassAttrs`; every step consumes at least
one character, so fuel equal to the input length is exact. -/
def stripClassAttrsFuel : Nat → List Char → List Char
  | 0, cs => cs
  | _ + 1, [] => []
  | fuel + 1, c :: rest =>
    match classAttrMatchAt (c :: rest) with
    | some (_, after) => stripClassAttrsFuel fuel after
    | none => c :: stripClassAttrsFuel fuel rest

/-- `re.sub(r'class=["\']([^"\']*)["\']', '', tag_attrs)` (line 368):
every match of the class-attribute pattern removed. -/
def stripClassAttrs (cs : List Char) : List Char :=
  stripClassAttrsFuel cs.length cs

/-- Python `str.strip()`. -/
def pyStrip (cs : List Char) : List Char :=
  ((cs.dropWhile Char.isWhitespace).reverse.dropWhile Char.isWhitespace).reverse

/-- Worker for `splitWs` with an accumulator of the current (reversed)
token. -/
def splitWsAux : List Char → List Char → List (List Char)
  | [], acc => if acc.isEmpty then [] else [acc.reverse]
  | c :: rest, acc =>
    if c.isWhitespace then
      if acc.isEmpty then splitWsAux rest []
      else acc.reverse :: splitWsAux rest []
    else splitWsAux rest (c :: acc)

/-- Python `str.split()` with no argument: split on whitespace runs,
dropping empty tokens (line 355). -/
def splitWs (cs : List Char) : List (List Char) :=
  splitWsAux cs []

def listStartsWith : List Char → List Char → Bool
  | _, [] => true
  | [], _ :: _ => false
  | c :: cs, p :: ps => c = p && listStartsWith cs ps

/-- Python `pat in s` substring containment. -/
def containsSub : List Char → List Char → Bool
  | [], pat => pat.isEmpty
  | c :: cs, pat => listStartsWith (c :: cs) pat || containsSub cs pat

/-- The fixed layout-keyword set of line 360:
`['flex', 'grid', 'space-y', 'space-x', 'gap-', 'cols-']`. -/
def layout_keywords : List (List Char) :=
  (["flex", "grid", "space-y", "space-x", "gap-", "cols-"] :
    List String).map String.data

/-- Python `' '.join(xs)`. -/
def joinSpace (xs : List (List Char)) : List Char :=
  (List.intersperse [' '] xs).flatten

/-- The tail part of `re.search(r'^<\w+[^>]*>(.*)</\w+>$', html, re.DOTALL)`
(line 364): given the text after the opening tag, checks that it ends in a
closing tag `</\w+>` and returns what the greedy `(.*)` captures. -/
def parseCloseAtEnd (cs : List Char) : Option (List Char) :=
  match cs.reverse with
  | '>' :: r2 =>
    let tagRev := r2.takeWhile isWordChar
    if tagRev.isEmpty then none
    else
      match r2.drop tagRev.length with
      | '/' :: '<' :: r3 => some r3.reverse
      | _ => none
  | _ => none

/-- `inner_content` (lines 364-365): the raw substring between the outer
opening and closing tags, or `''` when the pattern does not match. -/
def innerContentOf (cs : List Char) : List Char :=
  match parseOpenTag cs with
  | none => []
  | some (_, _, rest) =>
    match parseCloseAtEnd rest with
    | none => []
    | some inner => inner

/-- A single quote character as a string (used to reproduce the source's
description texts, which quote class lists). -/
def sq : String :=
  String.mk ['\'']

/-- `build_html_with_classes` (lines 371-388): rebuild the element from the
tag name, the new class list, an optional inline style, the preserved other
attributes and the unchanged inner content. -/
def build_html_with_classes (tag_name other_attrs inner_content : List Char)
    (new_classes : List (List Char)) (extra_style : String) : String :=
  let class_str := String.mk (joinSpace new_classes)
  let opening :=
    if ¬ other_attrs.isEmpty then
      if extra_style ≠ "" then
        "<" ++ String.mk tag_name ++ " class=\"" ++ class_str ++
          "\" style=\"" ++ extra_style ++ "\" " ++ String.mk other_attrs ++ ">"
      else
        "<" ++ String.mk tag_name ++ " class=\"" ++ class_str ++ "\" " ++
          String.mk other_attrs ++ ">"
    else
      if extra_style ≠ "" then
        "<" ++ String.mk tag_name ++ " class=\"" ++ class_str ++
          "\" style=\"" ++ extra_style ++ "\">"
      else
        "<" ++ String.mk tag_name ++ " class=\"" ++ class_str ++ "\">"
  opening ++ String.mk inner_content ++ "</" ++ String.mk tag_name ++ ">"

/-- `generate_static_variants` (lines 329-498).  The successive
`variants.append(...)` calls are transcribed as head-cons plus conditional
appends, preserving order. -/
def generate_static_variants (html : String) (block_type : String)
    (available_width : Int) (variant_count : Int) : List LayoutVariant :=
  match parseOpenTag html.data with
  | none =>
    [{ title := "Original Layout"
       description := "Keeping the current layout unchanged"
       html := html }]
  | some (tag_name, tag_attrs, _) =>
    let current_classes :=
      match findClassValue tag_attrs with
      | some v => splitWs v
      | none => []
    let base_classes := current_classes.filter (fun c =>
      ¬ layout_keywords.any (fun k => containsSub c k))
    let inner_content := innerContentOf html.data
    let other_attrs := pyStrip (stripClassAttrs tag_attrs)
    let build := fun (ncs : List (List Char)) (style : String) =>
      build_html_with_classes tag_name other_attrs inner_content ncs style
    let joined := joinSpace current_classes
    let variants : List LayoutVariant :=
      if block_type = "list-container" || containsSub joined "space-y".data
      then
        { title := "🎯 DRAMATIC: Card Layout"
          description := "TESTING: Wrapped entire block in nested divs with border/shadow - verifies data-textpath survives restructuring"
          html := "<div class=\"border-4 border-blue-500 rounded-lg p-6 bg-blue-50 shadow-xl\"><div class=\"" ++
            String.mk (joinSpace (base_classes ++ ["space-y-6".data])) ++
            "\">" ++ String.mk inner_content ++ "</div></div>" } ::
        ((if 300 ≤ available_width then
            [{ title := "2-Column Grid"
               description := "Arranged items in a 2-column grid layout with " ++
                 sq ++ "grid grid-cols-2 gap-4" ++ sq
               html := build (base_classes ++
                 ["grid".data, "grid-cols-2".data, "gap-4".data]) "" }]
          else []) ++
         [if 600 ≤ available_width then
            { title := "3-Column Grid"
              description := "Distributed items across 3 columns using " ++
                sq ++ "grid grid-cols-3 gap-6" ++ sq ++
                " for better space utilization"
              html := build (base_classes ++
                ["grid".data, "grid-cols-3".data, "gap-6".data]) "" }
          else
            { title := "Horizontal Flex Row"
              description := "Arranged items horizontally with flex-wrap for responsive layout"
              html := build (base_classes ++
                ["flex".data, "flex-row".data, "gap-4".data,
                 "flex-wrap".data]) "" }])
      else if block_type = "grid-container" || containsSub joined "grid".data
      then
        { title := "2-Column Grid"
          description := "Simple 2-column grid with even spacing"
          html := build (base_classes ++
            ["grid".data, "grid-cols-2".data, "gap-4".data]) "" } ::
        ((if 600 ≤ available_width then
            [{ title := "3-Column Grid"
               description := "Expanded to 3 columns for better content distribution"
               html := build (base_classes ++
                 ["grid".data, "grid-cols-3".data, "gap-6".data]) "" }]
          else []) ++
         [if 800 ≤ available_width then
            { title := "4-Column Grid"
              description := "Compact 4-column layout for dense information"
              html := build (base_classes ++
                ["grid".data, "grid-cols-4".data, "gap-4".data]) "" }
          else
            { title := "Auto-Fit Grid"
              description := "Responsive grid that adapts to available space"
              html := build (base_classes ++ ["grid".data, "gap-4".data])
                "grid-template-columns: repeat(auto-fit, minmax(150px, 1fr));" }])
      else
        { title := "Vertical Stack"
          description := "Stacked vertically with consistent spacing"
          html := build (base_classes ++
            ["flex".data, "flex-col".data, "gap-4".data]) "" } ::
        ((if 400 ≤ available_width then
            [{ title := "Horizontal Flow"
               description := "Arranged horizontally with wrapping"
               html := build (base_classes ++
                 ["flex".data, "flex-row".data, "gap-6".data,
                  "flex-wrap".data]) "" }]
          else []) ++
         (if 500 ≤ available_width then
            [{ title := "Grid Layout"
               description := "2-column grid for balanced presentation"
               html := build (base_classes ++
                 ["grid".data, "grid-cols-2".data, "gap-6".data]) "" }]
          else []))
    let variants2 :=
      if variants.isEmpty then
        [{ title := "Original Layout"
           description := "Keeping the current layout unchanged"
           html := html }]
      else variants
    pySliceTo variants2 variant_count

/-- The space-separated class tokens of the outer element of an HTML
fragment (via the same regexes the transformer itself uses). -/
def outer_class_list (html : String) : List String :=
  match parseOpenTag html.data with
  | none => []
  | some (_, attrs, _) =>
    match findClassValue attrs with
    | some v => (splitWs v).map String.mk
    | none => []

/-- The raw inner content of an HTML fragment as a string. -/
def inner_content_string (html : String) : String :=
  String.mk (innerContentOf html.data)

/-- The concrete input fragment of the spec's static-fallback example. -/
def c9_input : String :=
  "<div class=\"space-y-4 text-sm\"><span>x</span></div>"

/-- The card-wrap variant the transformer produces first on `c9_input`. -/
def c9_variant1 : LayoutVariant :=
  { title := "🎯 DRAMATIC: Card Layout"
    description := "TESTING: Wrapped entire block in nested divs with border/shadow - verifies data-textpath survives restructuring"
    html := "<div class=\"border-4 border-blue-500 rounded-lg p-6 bg-blue-50 shadow-xl\"><div class=\"text-sm space-y-6\"><span>x</span></div></div>" }

/-- The 2-column-grid variant the transformer produces on `c9_input` when
`available_width ≥ 300`. -/
def c9_variant2 : LayoutVariant :=
  { title := "2-Column Grid"
    description := "Arranged items in a 2-column grid layout with " ++ sq ++
      "grid grid-cols-2 gap-4" ++ sq
    html := "<div class=\"text-sm grid grid-cols-2 gap-4\"><span>x</span></div>" }

/-- The 3-column-grid variant (produced when `available_width ≥ 600`). -/
def c9_variant3 : LayoutVariant :=
  { title := "3-Column Grid"
    description := "Distributed items across 3 columns using " ++ sq ++
      "grid grid-cols-3 gap-6" ++ sq ++ " for better space utilization"
    html := "<div class=\"text-sm grid grid-cols-3 gap-6\"><span>x</span></div>" }

/-- The horizontal-flex fallback variant (produced when
`available_width < 600`). -/
def c9_variant_flex : LayoutVariant :=
  { title := "Horizontal Flex Row"
    description := "Arranged items horizontally with flex-wrap for responsive layout"
    html := "<div class=\"text-sm flex flex-row gap-4 flex-wrap\"><span>x</span></div>" }

/-! ### Helper lemmas about the list operations -/

theorem reindexFrom_length (n : Int) (l : List Slide) :
    (reindexFrom n l).length = l.length := by
  induction l generalizing n with
  | nil => rfl
  | cons s rest ih => simp [reindexFrom, ih]

theorem reindexFrom_get_index (n : Int) (l : List Slide) (i : Nat)
    (h : i < (reindexFrom n l).length) :
    ((reindexFrom n l).get ⟨i, h⟩).index = n + i := by
  induction l generalizing n i with
  | nil => simp [reindexFrom] at h
  | cons s rest ih =>
    cases i with
    | zero => simp [reindexFrom]
    | succ j =>
      have h' : j < (reindexFrom (n + 1) rest).length := by
        simpa [reindexFrom] using h
      have := ih (n + 1) j h'
      simp only [reindexFrom, List.get] at this ⊢
      rw [this]
      push_cast
      ring

theorem reindexFrom_get_id (n : Int) (l : List Slide) (i : Nat)
    (h : i < (reindexFrom n l).length) (h' : i < l.length) :
    ((reindexFrom n l).get ⟨i, h⟩).id = (l.get ⟨i, h'⟩).id := by
  induction l generalizing n i with
  | nil => simp [reindexFrom] at h
  | cons s rest ih =>
    cases i with
    | zero => simp [reindexFrom]
    | succ j =>
      have hj : j < (reindexFrom (n + 1) rest).length := by
        simpa [reindexFrom] using h
      have hj' : j < rest.length := by simpa using h'
      simpa [reindexFrom, List.get] using ih (n + 1) j hj hj'

theorem reindexFrom_map_id (n : Int) (l : List Slide) :
    (reindexFrom n l).map Slide.id = l.map Slide.id := by
  induction l generalizing n with
  | nil => rfl
  | cons s rest ih => simp [reindexFrom, ih]

theorem reindex_length (l : List Slide) : (reindex l).length = l.length :=
  reindexFrom_length 0 l

theorem reindex_positionsIndexed (l : List Slide) :
    positionsIndexed (reindex l) := by
  intro i h
  simpa using reindexFrom_get_index 0 l i h

theorem reindex_map_id (l : List Slide) :
    (reindex l).map Slide.id = l.map Slide.id :=
  reindexFrom_map_id 0 l

theorem reindex_get_id (l : List Slide) (i : Nat)
    (h : i < (reindex l).length) (h' : i < l.length) :
    ((reindex l).get ⟨i, h⟩).id = (l.get ⟨i, h'⟩).id :=
  reindexFrom_get_id 0 l i h h'

theorem findSlideIdx_lt (l : List Slide) (sid : String) (i : Nat)
    (h : findSlideIdx l sid = some i) : i < l.length := by
  induction l generalizing i with
  | nil => simp [findSlideIdx] at h
  | cons s rest ih =>
    by_cases hs : s.id = sid
    · simp only [findSlideIdx, if_pos hs, Option.some.injEq] at h
      simp [← h]
    · simp [findSlideIdx, hs] at h
      obtain ⟨j, hj, rfl⟩ := h
      have := ih j hj
      simp
      omega

theorem findSlideIdx_get_id (l : List Slide) (sid : String) (i : Nat)
    (h : findSlideIdx l sid = some i) (h' : i < l.length) :
    (l.get ⟨i, h'⟩).id = sid := by
  induction l generalizing i with
  | nil => simp [findSlideIdx] at h
  | cons s rest ih =>
    by_cases hs : s.id = sid
    · simp [findSlideIdx, hs] at h
      subst h
      simpa using hs
    · simp [findSlideIdx, hs] at h
      obtain ⟨j, hj, rfl⟩ := h
      have hj' : j < rest.length := findSlideIdx_lt rest sid j hj
      simpa [List.get] using ih j hj hj'

theorem findSlideIdx_eq_none (l : List Slide) (sid : String) :
    findSlideIdx l sid = none ↔ ∀ s ∈ l, s.id ≠ sid := by
  induction l with
  | nil => simp [findSlideIdx]
  | cons s rest ih =>
    by_cases hs : s.id = sid
    · simp [findSlideIdx, hs]
    · simp [findSlideIdx, hs, ih]

theorem pyPop_eq (l : List Slide) (i : Nat) (h : i < l.length) :
    pyPop l i = some (l.get ⟨i, h⟩, l.eraseIdx i) := by
  induction l generalizing i with
  | nil => simp at h
  | cons s rest ih =>
    cases i with
    | zero => simp [pyPop, List.eraseIdx]
    | succ j =>
      have hj : j < rest.length := by simpa using h
      simp [pyPop, ih j hj, List.eraseIdx, List.get]

theorem length_eraseIdx_of_lt {α : Type} (l : List α) (i : Nat)
    (h : i < l.length) : (l.eraseIdx i).length = l.length - 1 := by
  induction l generalizing i with
  | nil => simp at h
  | cons s rest ih =>
    cases i with
    | zero => simp [List.eraseIdx]
    | succ j =>
      have hj : j < rest.length := by simpa using h
      have hr : 1 ≤ rest.length := Nat.one_le_of_lt (Nat.lt_of_le_of_lt (Nat.zero_le j) hj)
      simp [List.eraseIdx, ih j hj]
      omega

theorem perm_get_cons_eraseIdx {α : Type} (l : List α) (i : Nat)
    (h : i < l.length) : l.Perm (l.get ⟨i, h⟩ :: l.eraseIdx i) := by
  induction l generalizing i with
  | nil => simp at h
  | cons s rest ih =>
    cases i with
    | zero => simp [List.eraseIdx]
    | succ j =>
      have hj : j < rest.length := by simpa using h
      have h1 : (s :: rest).Perm (s :: (rest.get ⟨j, hj⟩ :: rest.eraseIdx j)) :=
        (ih j hj).cons s
      exact h1.trans (List.Perm.swap _ _ _)

theorem insertIdx_perm_cons {α : Type} (l : List α) (j : Nat) (x : α)
    (h : j ≤ l.length) : (l.insertIdx j x).Perm (x :: l) := by
  induction l generalizing j with
  | nil =>
    have : j = 0 := Nat.le_zero.mp h
    subst this
    simp
  | cons s rest ih =>
    cases j with
    | zero => simp
    | succ k =>
      have hk : k ≤ rest.length := by simpa using h
      rw [List.insertIdx_succ_cons]
      exact ((ih k hk).cons s).trans (List.Perm.swap _ _ _)

theorem insertIdx_length_eq {α : Type} (l : List α) (j : Nat) (x : α)
    (h : j ≤ l.length) : (l.insertIdx j x).length = l.length + 1 := by
  induction l generalizing j with
  | nil =>
    have : j = 0 := Nat.le_zero.mp h
    subst this
    simp
  | cons s rest ih =>
    cases j with
    | zero => simp
    | succ k =>
      have hk : k ≤ rest.length := by simpa using h
      simp [List.insertIdx_succ_cons, ih k hk]

theorem insertIdx_get_self {α : Type} (l : List α) (j : Nat) (x : α)
    (h : j ≤ l.length) (h2 : j < (l.insertIdx j x).length) :
    (l.insertIdx j x).get ⟨j, h2⟩ = x := by
  induction l generalizing j with
  | nil =>
    have : j = 0 := Nat.le_zero.mp h
    subst this
    simp
  | cons s rest ih =>
    cases j with
    | zero => simp
    | succ k =>
      have hk : k ≤ rest.length := by simpa using h
      have h2' : k < (rest.insertIdx k x).length := by
        simpa [List.insertIdx_succ_cons] using h2
      simpa [List.insertIdx_succ_cons, List.get] using ih k hk h2'

theorem get_append_lt {α : Type} (l l' : List α) (i : Nat) (h : i < l.length)
    (h2 : i < (l ++ l').length) : (l ++ l').get ⟨i, h2⟩ = l.get ⟨i, h⟩ := by
  induction l generalizing i with
  | nil => simp at h
  | cons s rest ih =>
    cases i with
    | zero => simp
    | succ j =>
      have hj : j < rest.length := by simpa using h
      simpa [List.get] using ih j hj (by simpa using h2)

theorem get_append_last {α : Type} (l : List α) (a : α)
    (h : l.length < (l ++ [a]).length) :
    (l ++ [a]).get ⟨l.length, h⟩ = a := by
  induction l with
  | nil => simp
  | cons s rest ih =>
    have h' : rest.length < (rest ++ [a]).length := by simp
    simpa using ih h'

/-- The two branch shapes of `move_slide` after validation, proved once and
shared by the theorems below. -/
theorem move_slide_eq_noop (persist : List Slide → Except String Presentation)
    (target : Presentation) (slide_id : String) (new_position : Int) (cur : Nat)
    (hfind : findSlideIdx target.slides slide_id = some cur)
    (heq : (cur : Int) = new_position) :
    move_slide persist target slide_id new_position =
      .ok (.alreadyAt ("Slide is already at position " ++ toString new_position)
        target.id cur target) := by
  have hlt : cur < target.slides.length := findSlideIdx_lt _ _ _ hfind
  simp only [move_slide, hfind]
  rw [if_neg (by omega : ¬(new_position < 0 ∨
    (target.slides.length : Int) ≤ new_position))]
  rw [if_pos heq]

/-- The actual-move branch of `move_slide`, instantiated with a persist
function that echoes the written slide list (full-document replace). -/
theorem move_slide_eq_moved (target : Presentation) (slide_id : String)
    (new_position : Int) (cur : Nat)
    (hfind : findSlideIdx target.slides slide_id = some cur)
    (h0 : 0 ≤ new_position)
    (hlen : new_position < (target.slides.length : Int))
    (hne : (cur : Int) ≠ new_position) (hcur : cur < target.slides.length) :
    move_slide (fun l => .ok ⟨target.id, l⟩) target slide_id new_position =
      .ok (.moved ("Slide moved from position " ++ toString cur ++ " to " ++
          toString new_position)
        slide_id target.id cur new_position
        (reindex (pyInsertIdx (target.slides.eraseIdx cur) new_position
          (target.slides.get ⟨cur, hcur⟩))).length
        ⟨target.id, reindex (pyInsertIdx (target.slides.eraseIdx cur)
          new_position (target.slides.get ⟨cur, hcur⟩))⟩) := by
  simp only [move_slide, hfind]
  rw [if_neg (by omega : ¬(new_position < 0 ∨
    (target.slides.length : Int) ≤ new_position))]
  rw [if_neg hne]
  rw [pyPop_eq target.slides cur hcur]

theorem get_eq_of_eq_list {α : Type} (l l' : List α) (h : l = l') (i : Nat)
    (hi : i < l.length) (hi' : i < l'.length) :
    l.get ⟨i, hi⟩ = l'.get ⟨i, hi'⟩ := by
  subst h
  rfl

/-- In the range `0 ≤ i < |l| + 1`, `pyInsertIdx` is plain insertion at
index `i.toNat`. -/
theorem pyInsertIdx_nonneg (l : List Slide) (i : Int) (x : Slide)
    (h0 : 0 ≤ i) (hle : i ≤ (l.length : Int)) :
    pyInsertIdx l i x = l.insertIdx i.toNat x := by
  simp only [pyInsertIdx]
  rw [if_neg (by omega : ¬ i < 0)]
  congr 1
  omega

/-- C1 counterexample: with a single-slide sequence whose stored position is
`1` (not `0`) and append position `p = -1`, `add_slide` leaves the stale
position untouched: the result has length 2 but its first slide still
carries position `1`, so `S'[i].position == i` fails. -/
theorem add_slide_insert_append_counterexample :
    (add_slide_insert [mkSlide "a" 1] (mkSlide "b" 0) (-1)).length = 1 + 1 ∧
    ¬ positionsIndexed (add_slide_insert [mkSlide "a" 1] (mkSlide "b" 0) (-1)) := by
  decide

/-- C1 (amended): for every slide sequence `S` that already satisfies the
data-model invariant `S[i].position == i` and every valid insert position
`p` (`p = -1`, `p ≥ len(S)`, `p = 0`, or interior), the sequence produced by
the insertion core of `add_slide` has length `len(S) + 1` and satisfies
`S'[i].position == i` for every index `i`.  (The invariant hypothesis is
needed because the append branch, lines 237-240, does not run the re-index
loop; the head and interior branches re-index unconditionally.) -/
theorem add_slide_insert_spec (slides : List Slide) (new_slide : Slide)
    (position : Int) (hS : positionsIndexed slides)
    (hp : position = -1 ∨ 0 ≤ position) :
    (add_slide_insert slides new_slide position).length = slides.length + 1 ∧
    positionsIndexed (add_slide_insert slides new_slide position) := by
  unfold add_slide_insert
  by_cases hA : position = -1 ∨ (slides.length : Int) ≤ position
  · rw [if_pos hA]
    refine ⟨by simp, ?_⟩
    intro i h
    have hi' : i < slides.length + 1 := by simpa using h
    rcases Nat.lt_or_ge i slides.length with hi | hi
    · rw [get_append_lt slides _ i hi h]
      exact hS i hi
    · have hieq : i = slides.length := by omega
      subst hieq
      rw [get_append_last slides _ h]
  · rw [if_neg hA]
    push_neg at hA
    obtain ⟨hne, hlt⟩ := hA
    by_cases h0 : position = 0
    · rw [if_pos h0]
      exact ⟨by simp [reindex_length], reindex_positionsIndexed _⟩
    · rw [if_neg h0]
      have hpos : 0 < position := by
        rcases hp with h | h
        · exact absurd h hne
        · omega
      rw [pyInsertIdx_nonneg slides position _ (le_of_lt hpos) (le_of_lt hlt)]
      have hle : position.toNat ≤ slides.length := by omega
      refine ⟨?_, reindex_positionsIndexed _⟩
      rw [reindex_length, insertIdx_length_eq slides position.toNat _ hle]

/-- C1 witness: the amended theorem applied to a concrete well-indexed
sequence and `p = -1`. -/
theorem add_slide_insert_spec_witness :
    (add_slide_insert [mkSlide "a" 0] (mkSlide "b" 5) (-1)).length =
      [mkSlide "a" 0].length + 1 ∧
    positionsIndexed (add_slide_insert [mkSlide "a" 0] (mkSlide "b" 5) (-1)) :=
  add_slide_insert_spec [mkSlide "a" 0] (mkSlide "b" 5) (-1) (by decide)
    (Or.inl rfl)

/-- C3: when the target slide is present (`findSlideIdx` returns its index)
and `new_position` lies outside `[0, len(S)-1]`, `move_slide` fails with
HTTP 400 (InvalidArgument, not 404), for every persist function — so no
mutated slide list is ever written to the backend. -/
theorem move_slide_invalid_position
    (persist : List Slide → Except String Presentation)
    (target : Presentation) (slide_id : String) (new_position : Int)
    (cur : Nat) (hfind : findSlideIdx target.slides slide_id = some cur)
    (hout : new_position < 0 ∨ (target.slides.length : Int) ≤ new_position) :
    move_slide persist target slide_id new_position =
      .error ⟨400, "Invalid position " ++ toString new_position ++
        ". Must be between 0 and " ++
        toString ((target.slides.length : Int) - 1)⟩ := by
  simp only [move_slide, hfind]
  rw [if_pos hout]

/-- C3 witness: moving a present slide to position 5 in a 2-slide
presentation yields exactly the 400 error, with any persist function. -/
theorem move_slide_invalid_position_witness :
    move_slide (fun l => .ok ⟨"p", l⟩)
        ⟨"p", [mkSlide "a" 0, mkSlide "b" 1]⟩ "a" 5 =
      .error ⟨400, "Invalid position 5. Must be between 0 and 1"⟩ := by
  have h := move_slide_invalid_position (fun l => .ok ⟨"p", l⟩)
    ⟨"p", [mkSlide "a" 0, mkSlide "b" 1]⟩ "a" 5 0 (by decide)
    (Or.inr (by decide))
  simpa using h

/-- C6: when the slide is already at the requested position, `move_slide`
returns (for every persist function, hence without any backend write) the
distinct already-at-position response carrying the input presentation
unchanged. -/
theorem move_slide_noop (persist : List Slide → Except String Presentation)
    (target : Presentation) (slide_id : String) (new_position : Int)
    (cur : Nat) (hfind : findSlideIdx target.slides slide_id = some cur)
    (heq : (cur : Int) = new_position) :
    move_slide persist target slide_id new_position =
      .ok (.alreadyAt ("Slide is already at position " ++ toString new_position)
        target.id cur target) :=
  move_slide_eq_noop persist target slide_id new_position cur hfind heq

/-- C6 witness: moving slide `b` (at index 1) to position 1 in a concrete
2-slide presentation returns the already-at-position response with the
presentation unchanged. -/
theorem move_slide_noop_witness :
    move_slide (fun l => .ok ⟨"p", l⟩)
        ⟨"p", [mkSlide "a" 0, mkSlide "b" 1]⟩ "b" 1 =
      .ok (.alreadyAt "Slide is already at position 1" "p" 1
        ⟨"p", [mkSlide "a" 0, mkSlide "b" 1]⟩) := by
  have h := move_slide_noop (fun l => .ok ⟨"p", l⟩)
    ⟨"p", [mkSlide "a" 0, mkSlide "b" 1]⟩ "b" 1 1 (by decide) (by decide)
  simpa using h

/-- C2 counterexample: for the slide sequence `[{id := a, position := 7}]`
(which violates the data-model invariant) and `new_position = 0` (equal to
the slide's current index), `move_slide` takes the no-op branch and returns
the sequence unchanged, so the claimed property "every slide's position
field equals its zero-based index" fails on the produced sequence. -/
theorem move_slide_position_counterexample :
    move_slide (fun l => .ok ⟨"p", l⟩) ⟨"p", [mkSlide "a" 7]⟩ "a" 0 =
      .ok (.alreadyAt "Slide is already at position 0" "p" 0
        ⟨"p", [mkSlide "a" 7]⟩) ∧
    ¬ positionsIndexed [mkSlide "a" 7] := by
  decide

/-- C2 (amended): for every presentation whose slide sequence satisfies the
data-model invariant `S[i].position == i`, containing a slide with id `x`,
and every `new_position` with `0 ≤ new_position < len(S)`, the sequence held
by the response of `move_slide` (with a persist function that echoes the
written list, i.e. full-document replace) is a permutation of `S` (same
multiset of ids), has every slide's position field equal to its zero-based
index, and has the slide with id `x` at index `new_position` — the
reinsertion index equals `new_position` literally.  (The invariant
hypothesis is needed because the no-op branch returns the input sequence
without re-indexing.) -/
theorem move_slide_valid_spec (target : Presentation) (slide_id : String)
    (new_position : Int) (cur : Nat)
    (hfind : findSlideIdx target.slides slide_id = some cur)
    (h0 : 0 ≤ new_position)
    (hlen : new_position < (target.slides.length : Int))
    (hinv : positionsIndexed target.slides) :
    ∃ resp, move_slide (fun l => .ok ⟨target.id, l⟩) target slide_id
        new_position = .ok resp ∧
      (resp.presentation_of.slides.map Slide.id).Perm
        (target.slides.map Slide.id) ∧
      positionsIndexed resp.presentation_of.slides ∧
      ∃ h : new_position.toNat < resp.presentation_of.slides.length,
        (resp.presentation_of.slides.get ⟨new_position.toNat, h⟩).id =
          slide_id := by
  have hcur : cur < target.slides.length := findSlideIdx_lt _ _ _ hfind
  by_cases heq : (cur : Int) = new_position
  · refine ⟨_, move_slide_eq_noop _ target slide_id new_position cur hfind heq,
      ?_, ?_, ?_⟩
    · exact List.Perm.refl _
    · exact hinv
    · have hnp : new_position.toNat = cur := by omega
      show ∃ h : new_position.toNat < target.slides.length,
        (target.slides.get ⟨new_position.toNat, h⟩).id = slide_id
      have hh : new_position.toNat < target.slides.length := by omega
      refine ⟨hh, ?_⟩
      have hfin : (⟨new_position.toNat, hh⟩ : Fin target.slides.length) =
          ⟨cur, hcur⟩ := Fin.ext hnp
      rw [hfin]
      exact findSlideIdx_get_id _ _ _ hfind hcur
  · have hrest : (target.slides.eraseIdx cur).length =
        target.slides.length - 1 := length_eraseIdx_of_lt _ _ hcur
    have hnple : new_position.toNat ≤ (target.slides.eraseIdx cur).length := by
      omega
    have hins : pyInsertIdx (target.slides.eraseIdx cur) new_position
        (target.slides.get ⟨cur, hcur⟩) =
        (target.slides.eraseIdx cur).insertIdx new_position.toNat
          (target.slides.get ⟨cur, hcur⟩) := by
      apply pyInsertIdx_nonneg _ _ _ h0
      omega
    have hinnerlen : ((target.slides.eraseIdx cur).insertIdx
        new_position.toNat (target.slides.get ⟨cur, hcur⟩)).length =
        target.slides.length := by
      rw [insertIdx_length_eq _ _ _ hnple]
      omega
    refine ⟨_, move_slide_eq_moved target slide_id new_position cur hfind h0
      hlen heq hcur, ?_, ?_, ?_⟩
    · show ((reindex _).map Slide.id).Perm _
      rw [reindex_map_id, hins]
      have p1 := (insertIdx_perm_cons (target.slides.eraseIdx cur)
        new_position.toNat (target.slides.get ⟨cur, hcur⟩) hnple).map Slide.id
      have p2 := (perm_get_cons_eraseIdx target.slides cur hcur).map Slide.id
      simpa using p1.trans p2.symm
    · exact reindex_positionsIndexed _
    · have hlen2 : (reindex (pyInsertIdx (target.slides.eraseIdx cur)
          new_position (target.slides.get ⟨cur, hcur⟩))).length =
          target.slides.length := by
        rw [reindex_length, hins, hinnerlen]
      show ∃ h : new_position.toNat < (reindex (pyInsertIdx
          (target.slides.eraseIdx cur) new_position
          (target.slides.get ⟨cur, hcur⟩))).length,
        ((reindex (pyInsertIdx (target.slides.eraseIdx cur) new_position
          (target.slides.get ⟨cur, hcur⟩))).get
            ⟨new_position.toNat, h⟩).id = slide_id
      have hh : new_position.toNat < (reindex (pyInsertIdx
          (target.slides.eraseIdx cur) new_position
          (target.slides.get ⟨cur, hcur⟩))).length := by
        rw [hlen2]; omega
      refine ⟨hh, ?_⟩
      have hh' : new_position.toNat < (pyInsertIdx
          (target.slides.eraseIdx cur) new_position
          (target.slides.get ⟨cur, hcur⟩)).length := by
        rw [hins, hinnerlen]; omega
      rw [reindex_get_id _ _ hh hh']
      have hh'' : new_position.toNat < ((target.slides.eraseIdx cur).insertIdx
          new_position.toNat (target.slides.get ⟨cur, hcur⟩)).length := by
        rw [hinnerlen]; omega
      rw [get_eq_of_eq_list _ _ hins new_position.toNat hh' hh'']
      rw [insertIdx_get_self (target.slides.eraseIdx cur)
        new_position.toNat (target.slides.get ⟨cur, hcur⟩) hnple hh'']
      exact findSlideIdx_get_id _ _ _ hfind hcur

/-- C2 witness: moving slide `c` from index 2 to position 0 in a concrete
well-indexed 3-slide presentation satisfies all three conclusions. -/
theorem move_slide_valid_spec_witness :
    ∃ resp, move_slide (fun l => .ok ⟨"p", l⟩)
        ⟨"p", [mkSlide "a" 0, mkSlide "b" 1, mkSlide "c" 2]⟩ "c" 0 =
        .ok resp ∧
      (resp.presentation_of.slides.map Slide.id).Perm
        ([mkSlide "a" 0, mkSlide "b" 1, mkSlide "c" 2].map Slide.id) ∧
      positionsIndexed resp.presentation_of.slides ∧
      ∃ h : (0 : Int).toNat < resp.presentation_of.slides.length,
        (resp.presentation_of.slides.get ⟨(0 : Int).toNat, h⟩).id = "c" :=
  move_slide_valid_spec ⟨"p", [mkSlide "a" 0, mkSlide "b" 1, mkSlide "c" 2]⟩
    "c" 0 2 (by decide) (by decide) (by decide) (by decide)

/-- C4: for every presentation whose slide ids are unique and that contains
a slide with id `x`, `delete_slide` (with an echoing persist function)
returns a sequence of length `len(S) - 1` containing no slide with id `x`,
re-indexed sequentially from 0; and when `x` is absent, it fails with
HTTP 404 for every persist function. -/
theorem delete_slide_spec (target : Presentation) (x : String) :
    (∀ i, findSlideIdx target.slides x = some i →
      (target.slides.map Slide.id).Nodup →
      ∃ resp, delete_slide (fun l => .ok ⟨target.id, l⟩) target x =
          .ok resp ∧
        resp.presentation.slides.length = target.slides.length - 1 ∧
        (∀ s ∈ resp.presentation.slides, s.id ≠ x) ∧
        positionsIndexed resp.presentation.slides) ∧
    ((∀ s ∈ target.slides, s.id ≠ x) →
      ∀ persist, delete_slide persist target x =
        .error ⟨404, "Slide " ++ x ++ " not found in any presentation"⟩) := by
  constructor
  · intro i hfind hnod
    have hi : i < target.slides.length := findSlideIdx_lt _ _ _ hfind
    refine ⟨{ message := "Slide " ++ x ++ " deleted successfully"
              presentation_id := target.id
              slides_remaining :=
                (delete_slide_updated_slides target.slides i).length
              presentation :=
                ⟨target.id, delete_slide_updated_slides target.slides i⟩ },
      by simp only [delete_slide, hfind], ?_, ?_, ?_⟩
    · show (delete_slide_updated_slides target.slides i).length = _
      unfold delete_slide_updated_slides
      rw [reindex_length, length_eraseIdx_of_lt _ _ hi]
    · intro s hs hsx
      have hperm := (perm_get_cons_eraseIdx target.slides i hi).map Slide.id
      have hnod2 : ((target.slides.get ⟨i, hi⟩).id ::
          (target.slides.eraseIdx i).map Slide.id).Nodup := by
        simpa using hperm.nodup hnod
      have hgid : (target.slides.get ⟨i, hi⟩).id = x :=
        findSlideIdx_get_id _ _ _ hfind hi
      have hnotmem : x ∉ (target.slides.eraseIdx i).map Slide.id := by
        have := (List.nodup_cons.mp hnod2).1
        rwa [hgid] at this
      apply hnotmem
      have : s.id ∈ (delete_slide_updated_slides target.slides i).map
          Slide.id := List.mem_map_of_mem Slide.id hs
      rw [hsx] at this
      simpa [delete_slide_updated_slides, reindex_map_id] using this
    · exact reindex_positionsIndexed _
  · intro hall persist
    have hnone : findSlideIdx target.slides x = none :=
      (findSlideIdx_eq_none _ _).mpr hall
    simp only [delete_slide, hnone]

/-- C4 witness: deleting present slide `a` from a concrete 2-slide
presentation with unique ids, and deleting absent slide `z`. -/
theorem delete_slide_spec_witness :
    (∃ resp, delete_slide (fun l => Except.ok ⟨"p", l⟩)
        ⟨"p", [mkSlide "a" 0, mkSlide "b" 1]⟩ "a" = .ok resp ∧
      resp.presentation.slides.length =
        [mkSlide "a" 0, mkSlide "b" 1].length - 1 ∧
      (∀ s ∈ resp.presentation.slides, s.id ≠ "a") ∧
      positionsIndexed resp.presentation.slides) ∧
    delete_slide (fun l => Except.ok ⟨"p", l⟩)
        ⟨"p", [mkSlide "a" 0, mkSlide "b" 1]⟩ "z" =
      .error ⟨404, "Slide z not found in any presentation"⟩ :=
  ⟨(delete_slide_spec ⟨"p", [mkSlide "a" 0, mkSlide "b" 1]⟩ "a").1 0
      (by decide) (by decide),
    by
      have h := (delete_slide_spec
        ⟨"p", [mkSlide "a" 0, mkSlide "b" 1]⟩ "z").2 (by decide)
        (fun l => Except.ok ⟨"p", l⟩)
      simpa using h⟩

/-- C10: any failure of the initial presentation fetch in `add_slide`
(absence, upstream error, timeout, non-2xx — all surfacing as an exception,
modelled as `Except.error`) is reported as HTTP 404 with the failure message
embedded, never as HTTP 500, and no persist call is made (the result is the
same for every persist function), so no slide is created. -/
theorem add_slide_fetch_failure_404
    (persist : List Slide → Except String Presentation)
    (presentation_id title description layout : String) (position : Int)
    (new_id e : String) :
    add_slide (.error e) persist presentation_id title description layout
        position new_id =
      .error ⟨404, "Presentation " ++ presentation_id ++ " not found: " ++ e⟩ :=
  rfl

/-- If every presentation that fetches successfully lacks the slide, the
scan loop finds nothing (failed fetches are skipped). -/
theorem scanForSlide_eq_none (fetchPres : String → Except String Presentation)
    (slide_id : String) (pids : List String)
    (h : ∀ pid ∈ pids, ∀ pres, fetchPres pid = .ok pres →
      ∀ s ∈ pres.slides, s.id ≠ slide_id) :
    scanForSlide fetchPres slide_id pids = none := by
  induction pids with
  | nil => rfl
  | cons pid rest ih =>
    have hrest : scanForSlide fetchPres slide_id rest = none :=
      ih (fun p hp => h p (List.mem_cons_of_mem _ hp))
    unfold scanForSlide
    cases hf : fetchPres pid with
    | error e => exact hrest
    | ok pres =>
      have hnone : pres.slides.find? (fun s => s.id == slide_id) = none := by
        rw [List.find?_eq_none]
        intro s hs
        have := h pid (List.mem_cons_self _ _) pres hf s hs
        simpa using this
      simp only [hnone]
      exact hrest

/-- C5: looking up a slide id contained in no presentation always fails with
HTTP 404 after scanning all presentations — a failure fetching an individual
presentation is swallowed and that presentation skipped — while a failure of
the top-level presentation-list fetch is fatal with HTTP 500.  (The shallow
embedding returns `Except` values everywhere, so no unhandled error can
escape by construction.) -/
theorem get_slide_by_id_not_found
    (fetchPres : String → Except String Presentation) (slide_id : String) :
    (∀ pids, (∀ pid ∈ pids, ∀ pres, fetchPres pid = .ok pres →
        ∀ s ∈ pres.slides, s.id ≠ slide_id) →
      get_slide_by_id (.ok pids) fetchPres slide_id =
        .error ⟨404, "Slide " ++ slide_id ++
          " not found in any presentation"⟩) ∧
    (∀ e, get_slide_by_id (.error e) fetchPres slide_id =
      .error ⟨500, "Failed to fetch presentations: " ++ e⟩) := by
  constructor
  · intro pids h
    have := scanForSlide_eq_none fetchPres slide_id pids h
    simp only [get_slide_by_id, this]
  · intro e
    rfl

/-- C5 witness: two presentations — the first fails to fetch, the second
fetches but lacks the slide — yield 404; a failed top-level list fetch
yields 500. -/
theorem get_slide_by_id_not_found_witness :
    get_slide_by_id (.ok ["p1", "p2"])
        (fun p => if p = "p2" then .ok ⟨"p2", [mkSlide "s" 0]⟩
          else .error "boom") "target" =
      .error ⟨404, "Slide target not found in any presentation"⟩ ∧
    get_slide_by_id (.error "down")
        (fun p => if p = "p2" then .ok ⟨"p2", [mkSlide "s" 0]⟩
          else .error "boom") "target" =
      .error ⟨500, "Failed to fetch presentations: down"⟩ := by
  have h := get_slide_by_id_not_found
    (fun p => if p = "p2" then .ok ⟨"p2", [mkSlide "s" 0]⟩
      else .error "boom") "target"
  constructor
  · have h1 := h.1 ["p1", "p2"] (by
      intro pid hp pres hf s hs
      simp only [List.mem_cons, List.not_mem_nil, or_false] at hp
      rcases hp with rfl | rfl
      · rw [if_neg (by decide : ¬ ("p1" : String) = "p2")] at hf
        exact Except.noConfusion hf
      · rw [if_pos rfl] at hf
        injection hf with hf2
        rw [← hf2] at hs
        simp only [List.mem_singleton] at hs
        rw [hs]
        decide)
    simpa using h1
  · have h2 := h.2 "down"
    simpa using h2

/-- C7 counterexample: `generate_text_variants` with a schema-valid 2-element
LLM response and requested count 1 (clamped count 1) returns both elements —
the result is not truncated to the requested count, refuting the claim for
the text generator. -/
theorem generate_text_variants_no_truncation :
    generate_text_variants (.ok ["a", "b"]) 1 = .ok ["a", "b"] ∧
    clamp_text_variant_count 1 = 1 ∧
    ¬ (((["a", "b"] : List String).length : Int) ≤
      clamp_text_variant_count 1) := by
  decide

/-- C7 (amended): `generate_layout_variants` truncates its result to the
clamped requested count (`response.variants[:variant_count]`), but
`generate_text_variants` returns the schema-validated variants list
unchanged — its length is bounded only by the schema maximum of 5, not by
the requested count. -/
theorem variant_generators_truncation_spec :
    (∀ (vs : List LayoutVariant) (c : Int) (out : List LayoutVariant),
      generate_layout_variants (.ok vs) c = .ok out →
      (out.length : Int) ≤ clamp_layout_variant_count c) ∧
    (∀ (vs : List String) (c : Int) (out : List String),
      generate_text_variants (.ok vs) c = .ok out →
      out = vs ∧ out.length ≤ 5) := by
  constructor
  · intro vs c out h
    have hvc : 1 ≤ clamp_layout_variant_count c := le_max_left 1 _
    simp only [generate_layout_variants, Except.ok.injEq] at h
    subst h
    unfold pySliceTo
    rw [if_pos (by omega)]
    have := List.length_take (clamp_layout_variant_count c).toNat vs
    have h2 : (vs.take (clamp_layout_variant_count c).toNat).length ≤
        (clamp_layout_variant_count c).toNat := by
      rw [this]
      exact Nat.min_le_left _ _
    omega
  · intro vs c out h
    simp only [generate_text_variants] at h
    by_cases hok : text_variants_schema_ok vs
    · rw [if_pos hok] at h
      simp only [Except.ok.injEq] at h
      subst h
      refine ⟨rfl, ?_⟩
      simp only [text_variants_schema_ok, Bool.and_eq_true,
        decide_eq_true_eq] at hok
      exact hok.2
    · rw [if_neg hok] at h
      exact Except.noConfusion h

/-- C7 witness: the amended theorem applied to concrete LLM responses —
a 2-variant layout response truncated at requested count 1, and a 2-variant
text response returned unchanged at requested count 3. -/
theorem variant_generators_truncation_spec_witness :
    ((([⟨"t", "d", "h"⟩] : List LayoutVariant)).length : Int) ≤
      clamp_layout_variant_count 1 ∧
    ((["x", "y"] : List String) = ["x", "y"] ∧
      (["x", "y"] : List String).length ≤ 5) :=
  ⟨variant_generators_truncation_spec.1
      [⟨"t", "d", "h"⟩, ⟨"t2", "d2", "h2"⟩] 1 [⟨"t", "d", "h"⟩] (by decide),
    variant_generators_truncation_spec.2 ["x", "y"] 3 ["x", "y"] (by decide)⟩

/-- C8: the "Design Direction" suggestion lines embedded by
`get_user_prompt` for a `list-container` block at `available_width = 200`
(< 300) still contain the 2-column-grid suggestion and coincide with the
lines for width 900 — the width-adjustment block computes the vertical-only
list (third conjunct) but rebinds the dict entry only after `suggestions`
was extracted, so the tiering never reaches the prompt. -/
theorem design_direction_lines_ignore_width :
    design_direction_lines "list-container" 200 3 =
      ["1. Generous vertical list with breathing room (space-y-8)",
       "2. Balanced 2-column grid if 4-6 items (grid grid-cols-2 gap-6)",
       "3. Creative beautiful layout: Transform to horizontal timeline OR masonry grid OR bento layout. Analyze item count first!"] ∧
    design_direction_lines "list-container" 200 3 =
      design_direction_lines "list-container" 900 3 ∧
    adjusted_list_container_suggestions 200 =
      ["Vertical list with generous spacing (space-y-6 or space-y-8)",
       "Compact vertical list (space-y-4)",
       "Vertical list with dividers between items"] :=
  ⟨rfl, rfl, rfl⟩

/-- C9: on the fragment `<div class="space-y-4 text-sm"><span>x</span></div>`
with block type `list-container`, any `available_width ≥ 300` and the
default variant count 3, the static fallback transformer produces a variant
whose outer class list contains `grid`, `grid-cols-2` and `gap-4` together
with the preserved non-layout class `text-sm`, and whose inner content is
the byte-identical string `<span>x</span>`. -/
theorem generate_static_variants_list_grid (w : Int) (hw : 300 ≤ w) :
    ∃ v ∈ generate_static_variants c9_input "list-container" w 3,
      v.html =
        "<div class=\"text-sm grid grid-cols-2 gap-4\"><span>x</span></div>" ∧
      "grid" ∈ outer_class_list v.html ∧
      "grid-cols-2" ∈ outer_class_list v.html ∧
      "gap-4" ∈ outer_class_list v.html ∧
      "text-sm" ∈ outer_class_list v.html ∧
      inner_content_string v.html = "<span>x</span>" := by
  have key : generate_static_variants c9_input "list-container" w 3 =
      c9_variant1 :: List.take 2
        ((if (300 : Int) ≤ w then [c9_variant2] else []) ++
         [if (600 : Int) ≤ w then c9_variant3 else c9_variant_flex]) := rfl
  refine ⟨c9_variant2, ?_, by decide⟩
  rw [key, if_pos hw]
  exact List.mem_cons_of_mem _ (List.mem_cons_self _ _)

/-- C9 witness: the theorem applied at the concrete width 300. -/
theorem generate_static_variants_list_grid_witness :
    ∃ v ∈ generate_static_variants c9_input "list-container" 300 3,
      v.html =
        "<div class=\"text-sm grid grid-cols-2 gap-4\"><span>x</span></div>" ∧
      "grid" ∈ outer_class_list v.html ∧
      "grid-cols-2" ∈ outer_class_list v.html ∧
      "gap-4" ∈ outer_class_list v.html ∧
      "text-sm" ∈ outer_class_list v.html ∧
      inner_content_string v.html = "<span>x</span>" :=
  generate_static_variants_list_grid 300 (by decide)

end SlideHelper
